import Mathlib

/-!
Verification of the Deepspeed distributor core of this repository
(`python/pyspark/ml/deepspeed/deepspeed_distributor.py`) and of the
function-pickling utilities exercised by `python/pyspark/ml/tests/test_util.py`.

The Python code is shallowly embedded: pure fragments become Lean functions,
the temporary-file side effects of `tempfile.NamedTemporaryFile` and of
`open(..., "w")` are threaded through explicit state records, and raised
exceptions become `Except` values.  Parts of the repository that the claims
depend on but that are not shipped with the distributor module
(`TorchDistributor._get_torchrun_args`, `TorchDistributor.__init__`
validation, and `FunctionPickler`) are modelled from the specification and
are marked as such in their doc comments.
-/

/-- A JSON-encodable value, as far as the deepspeed configuration
dictionaries used by the distributor need: numbers and strings. -/
inductive JsonVal where
  | num (n : Int)
  | str (s : String)
deriving DecidableEq, Repr

/-- Serialization of one JSON value, following what `json.dump` prints. -/
def JsonVal.dump : JsonVal → String
  | .num n => toString n
  | .str s => "\"" ++ s ++ "\""

/-- Serialization of the members of a JSON object: `"key": value` pairs
joined by `", "`, following `json.dump`. -/
def jsonDumpPairs : List (String × JsonVal) → String
  | [] => ""
  | [(k, v)] => "\"" ++ k ++ "\": " ++ v.dump
  | (k, v) :: rest => "\"" ++ k ++ "\": " ++ v.dump ++ ", " ++ jsonDumpPairs rest

/-- `json.dump` of a Python dict with string keys: the members wrapped in
braces. -/
def jsonDump (d : List (String × JsonVal)) : String :=
  "\x7b" ++ jsonDumpPairs d ++ "\x7d"

/-- The state of the temporary-file system seen by
`tempfile.NamedTemporaryFile(mode="w+", delete=False, suffix=".json")`:
how many temporary files have been created so far, and the files written,
newest first, as path/content pairs. -/
structure TempState where
  counter : Nat
  files : List (String × String)
deriving DecidableEq, Repr

/-- The name handed out for the `n`-th temporary file.
`tempfile.NamedTemporaryFile` guarantees a name distinct from every name
already in use; the model realises that guarantee with a supply that is
injective in the number of files created so far. -/
def tempFileName (n : Nat) : String :=
  "/tmp/tmp" ++ String.mk (List.replicate n 'x') ++ ".json"

/-- The `deepspeed_config` argument of `DeepspeedTorchDistributor`:
`None`, a path string, or a configuration dict. -/
inductive DeepspeedConfig where
  | none
  | str (path : String)
  | dict (entries : List (String × JsonVal))
deriving DecidableEq, Repr

/-- `DeepspeedTorchDistributor._get_deepspeed_config_path`: a dict is
serialized with `json.dump` into a fresh temporary file whose name is
returned; a string is returned verbatim; `None` resolves to `""`. -/
def get_deepspeed_config_path : DeepspeedConfig → TempState → String × TempState
  | .dict d, st =>
      (tempFileName st.counter,
       ⟨st.counter + 1, (tempFileName st.counter, jsonDump d) :: st.files⟩)
  | .str p, st => (p, st)
  | .none, st => ("", st)

/-- The rendezvous parameters read from the environment
(`MASTER_ADDR`, `MASTER_PORT`, `RANK`) in distributed mode. -/
structure RendezvousEnv where
  addr : String
  port : Nat
  rank : Nat
deriving DecidableEq, Repr

/-- Modelled from the spec: `TorchDistributor._get_torchrun_args` lives in
`python/pyspark/ml/torch/distributor.py`, which is not part of the sources
here; sections 4.1 and 8 of the spec fix its contract.  Local mode yields
`["--standalone", "--nnodes=1"]` and `processes_per_node = total`;
distributed mode yields node count, node rank, rendezvous endpoint and a
fixed rendezvous id, with one process per node. -/
def get_torchrun_args (local_mode : Bool) (num_processes : Int)
    (env : RendezvousEnv) : List String × Int :=
  if local_mode then
    (["--standalone", "--nnodes=1"], num_processes)
  else
    (["--nnodes=" ++ toString num_processes,
      "--node_rank=" ++ toString env.rank,
      "--rdzv_endpoint=" ++ env.addr ++ ":" ++ toString env.port,
      "--rdzv_id=0"], 1)

/-- An extra positional argument forwarded to the training script; Python
applies `str` to each, which the embedding mirrors with `PyArg.toStr`. -/
inductive PyArg where
  | int (n : Int)
  | str (s : String)
deriving DecidableEq, Repr

/-- Python `str()` on an extra argument. -/
def PyArg.toStr : PyArg → String
  | .int n => toString n
  | .str s => s

/-- The fields of the `input_params` dictionary that
`_create_torchrun_command` reads. -/
structure InputParams where
  local_mode : Bool
  num_processes : Int
  deepspeed_config : DeepspeedConfig
deriving DecidableEq, Repr

/-- `DeepspeedTorchDistributor._create_torchrun_command`.  `exe` stands for
`sys.executable` and `env` for the rendezvous environment variables.  The
command is assembled with the trailing group
`["-deepspeed", "--deepspeed_config", path]` and, exactly as in the source,
the last two tokens are popped again when the resolved path is empty. -/
def create_torchrun_command (exe : String) (env : RendezvousEnv)
    (input_params : InputParams) (train_path : String) (args : List PyArg)
    (st : TempState) : List String × TempState :=
  let res := get_deepspeed_config_path input_params.deepspeed_config st
  let deepspeed_config_path := res.1
  let tr := get_torchrun_args input_params.local_mode input_params.num_processes env
  let args_string := args.map PyArg.toStr
  let command_to_run :=
    [exe, "-m", "torch.distributed.run"] ++ tr.1
      ++ ["--nproc_per_node=" ++ toString tr.2, train_path]
      ++ args_string
      ++ ["-deepspeed", "--deepspeed_config", deepspeed_config_path]
  if deepspeed_config_path = "" then
    (command_to_run.dropLast.dropLast, res.2)
  else
    (command_to_run, res.2)

/-- The exceptions the distributor raises. -/
inductive PyError where
  | valueError (msg : String)
  | fileNotFoundError (msg : String)
  | runtimeError (msg : String)
deriving DecidableEq, Repr

/-- The observable side effects of `_run_training_on_pytorch_file`: the
temporary-file state and the list of commands handed to
`_execute_command`, in order. -/
structure ExecState where
  temp : TempState
  executed : List (List String)
deriving DecidableEq, Repr

/-- `TorchDistributor._execute_command`, observed abstractly: the command is
recorded as executed. -/
def execute_command (cmd : List String) (st : ExecState) : ExecState :=
  ⟨st.temp, st.executed ++ [cmd]⟩

/-- `DeepspeedTorchDistributor._run_training_on_pytorch_file`: keyword
arguments are rejected with a `ValueError` before anything else happens;
otherwise the torchrun command is built and executed. -/
def run_training_on_pytorch_file (exe : String) (env : RendezvousEnv)
    (input_params : InputParams) (train_path : String) (args : List PyArg)
    (kwargs : List (String × PyArg)) (st : ExecState) :
    Except PyError Unit × ExecState :=
  if kwargs ≠ [] then
    (.error (.valueError
      "DeepspeedTorchDistributor with pytorch file does not support key-word type arguments"),
     st)
  else
    let res := create_torchrun_command exe env input_params train_path args st.temp
    (.ok (), execute_command res.1 ⟨res.2, st.executed⟩)

/-- The `train_object` argument of `DeepspeedTorchDistributor.run`: either a
string (assumed to be a file path) or a Python callable. -/
inductive TrainObject where
  | path (s : String)
  | func
deriving DecidableEq, Repr

/-- Which execution path `run` dispatches to. -/
inductive Dispatch where
  | localTraining
  | distributedTraining
deriving DecidableEq, Repr

/-- `DeepspeedTorchDistributor.run`, with the filesystem abstracted as the
list `fs` of existing paths.  A missing path raises `FileNotFoundError`; a
callable raises `RuntimeError` before any dispatch; otherwise the call is
routed to local or distributed training. -/
def DeepspeedTorchDistributor.run (fs : List String) (local_mode : Bool)
    (train_object : TrainObject) : Except PyError Dispatch :=
  match train_object with
  | .path s =>
      if s ∈ fs then
        if local_mode then .ok .localTraining else .ok .distributedTraining
      else
        .error (.fileNotFoundError
          ("The path to training file " ++ s ++ " does not exist."))
  | .func =>
      .error (.runtimeError
        "The DeepspeedTorchDistributor does not support Python training functions as input at this time")

/-- The state a constructed `DeepspeedTorchDistributor` carries, as far as
the claims need it. -/
structure Distributor where
  num_processes : Int
  local_mode : Bool
  deepspeed_config : DeepspeedConfig
deriving DecidableEq, Repr

/-- `DeepspeedTorchDistributor.__init__`: `num_processes = num_gpus * nnodes`
is computed in the source shipped here; the base-class validation is
modelled from the spec: `TorchDistributor.__init__` is in
`python/pyspark/ml/torch/distributor.py`, not among these sources, and the
spec (section 3) requires the process counts to be positive, total always
at least 1, rejecting anything else as a configuration error. -/
def distributor_init (num_gpus nnodes : Int) (local_mode : Bool)
    (deepspeed_config : DeepspeedConfig) : Except PyError Distributor :=
  let num_processes := num_gpus * nnodes
  if num_processes ≤ 0 then
    .error (.valueError "num_processes must be a positive integer")
  else
    .ok ⟨num_processes, local_mode, deepspeed_config⟩

/-- A scalar Python value carried as a positional or keyword argument. -/
inductive PyScalar where
  | int (n : Int)
  | str (s : String)
deriving DecidableEq, Repr

/-- One token of the binary pickle stream the model writes. -/
inductive PTok where
  | tFunc (name : String)
  | tInt (n : Int)
  | tStr (s : String)
  | tKey (k : String)
  | tLen (n : Nat)
deriving DecidableEq, Repr

/-- Encoding of one scalar into the pickle stream. -/
def encodeScalar : PyScalar → PTok
  | .int n => .tInt n
  | .str s => .tStr s

/-- Decoding of one scalar token. -/
def decodeScalar : PTok → Option PyScalar
  | .tInt n => some (.int n)
  | .tStr s => some (.str s)
  | _ => Option.none

/-- A `SerializedCall`: the callable (identified by reference), the
positional arguments in order, and the keyword arguments. -/
structure SerializedCall where
  fn : String
  args : List PyScalar
  kwargs : List (String × PyScalar)
deriving DecidableEq, Repr

/-- `cloudpickle.dump` of the tuple `(fn, args, kwargs)`, modelled as a
length-prefixed token stream. -/
def encodeCall (c : SerializedCall) : List PTok :=
  PTok.tFunc c.fn :: PTok.tLen c.args.length :: c.args.map encodeScalar
    ++ PTok.tLen c.kwargs.length
    :: (c.kwargs.map (fun kv => [PTok.tKey kv.1, encodeScalar kv.2])).flatten

/-- Decoding of `n` positional-argument tokens from the stream, returning
the decoded arguments and the remaining stream. -/
def decodeScalars : Nat → List PTok → Option (List PyScalar × List PTok)
  | 0, ts => some ([], ts)
  | n + 1, t :: ts =>
      match decodeScalar t, decodeScalars n ts with
      | some s, some (rest, ts₂) => some (s :: rest, ts₂)
      | _, _ => Option.none
  | _ + 1, [] => Option.none

/-- Decoding of `n` keyword-argument pairs from the stream. -/
def decodePairs : Nat → List PTok → Option (List (String × PyScalar) × List PTok)
  | 0, ts => some ([], ts)
  | n + 1, PTok.tKey k :: t :: ts =>
      match decodeScalar t, decodePairs n ts with
      | some s, some (rest, ts₂) => some ((k, s) :: rest, ts₂)
      | _, _ => Option.none
  | _ + 1, _ => Option.none

/-- `cloudpickle.load` of a `(fn, args, kwargs)` envelope: the inverse of
`encodeCall`, failing on malformed streams. -/
def decodeCall (ts : List PTok) : Option SerializedCall :=
  match ts with
  | PTok.tFunc f :: PTok.tLen na :: ts₁ =>
      match decodeScalars na ts₁ with
      | some (args, PTok.tLen nk :: ts₃) =>
          match decodePairs nk ts₃ with
          | some (kwargs, []) => some ⟨f, args, kwargs⟩
          | _ => Option.none
      | _ => Option.none
  | _ => Option.none

/-- The binary files written by the pickler, newest first. -/
structure PickleFS where
  files : List (String × List PTok)
deriving DecidableEq, Repr

/-- The fresh path used when neither a save path nor a save directory is
supplied; injective in the number of files written so far, as the
temporary-file facility guarantees. -/
def tempPicklePath (n : Nat) : String :=
  "/tmp/pickle" ++ String.mk (List.replicate n 'x') ++ ".pkl"

/-- Modelled from the spec: `FunctionPickler.pickle_fn_and_save` lives in
`python/pyspark/ml/util.py`, which is not among these sources; section 4.2
of the spec fixes its contract.  The call `(fn, args, kwargs)` is
serialized to a binary envelope; an explicit save path wins, else a path
inside the save directory, else a fresh temporary path; the resolved path
is returned. -/
def pickle_fn_and_save (c : SerializedCall) (save_path save_dir : String)
    (st : PickleFS) : String × PickleFS :=
  let path :=
    if save_path ≠ "" then save_path
    else if save_dir ≠ "" then save_dir ++ "/fn.pkl"
    else tempPicklePath st.files.length
  (path, ⟨(path, encodeCall c) :: st.files⟩)

/-- Modelled from the spec: `FunctionPickler.get_fn_output` loads the
envelope back from disk, recovering the callable, the positional arguments
and the keyword arguments. -/
def get_fn_output (path : String) (st : PickleFS) : Option SerializedCall :=
  match st.files.lookup path with
  | some ts => decodeCall ts
  | Option.none => Option.none

/-- The fixed body of the generated runner script, from
`_create_code_snippet_body` in `python/pyspark/ml/tests/test_util.py`
(the reference the repository tests compare against), with
`textwrap.dedent` applied: it loads the pickled call, invokes it, and
pickles the output. -/
def code_snippet_body (pickled_fn_path fn_output_save_path : String) : String :=
  "\nfrom pyspark import cloudpickle\nimport os\n\nif __name__ == \"__main__\":\n"
    ++ "    with open(\"" ++ pickled_fn_path ++ "\", \"rb\") as f:\n"
    ++ "        fn, args, kwargs = cloudpickle.load(f)\n"
    ++ "    output = fn(*args, **kwargs)\n"
    ++ "    with open(\"" ++ fn_output_save_path ++ "\", \"wb\") as f:\n"
    ++ "        cloudpickle.dump(output, f)\n"

/-- The text files holding generated runner scripts, newest first. -/
structure ScriptFS where
  files : List (String × String)
deriving DecidableEq, Repr

/-- Modelled from the spec: `FunctionPickler.create_fn_run_script` lives in
`python/pyspark/ml/util.py`, which is not among these sources; section 4.2
of the spec and `test_create_fn_run_script` fix its contract.  The script
written to `script_path` is the prefix code, the fixed body, and the
suffix code, in that order, each verbatim; nothing else enters the file. -/
def create_fn_run_script (pickled_fn_path fn_output_path script_path : String)
    (prefix_code suffix_code : String) (st : ScriptFS) : String × ScriptFS :=
  let content :=
    prefix_code ++ code_snippet_body pickled_fn_path fn_output_path ++ suffix_code
  (script_path, ⟨(script_path, content) :: st.files⟩)

lemma dropLast_dropLast_three {α : Type} (l : List α) (x y z : α) :
    ((l ++ [x, y, z]).dropLast).dropLast = l ++ [x] := by
  have h1 : l ++ [x, y, z] = (l ++ [x, y]) ++ [z] := by simp
  have h2 : l ++ [x, y] = (l ++ [x]) ++ [y] := by simp
  rw [h1, List.dropLast_concat, h2, List.dropLast_concat]

lemma getLast?_append_three {α : Type} (l : List α) (x y z : α) :
    (l ++ [x, y, z]).getLast? = some z := by
  have h1 : l ++ [x, y, z] = (l ++ [x, y]) ++ [z] := by simp
  rw [h1, List.getLast?_concat]

lemma getLast?_cmd {α : Type} (e m r f tp x y z : α) (T A : List α) :
    ([e, m, r] ++ T ++ [f, tp] ++ A ++ [x, y, z]).getLast? = some z := by
  rw [show [e, m, r] ++ T ++ [f, tp] ++ A ++ [x, y, z]
      = ([e, m, r] ++ T ++ [f, tp] ++ A ++ [x, y]) ++ [z] from by simp,
    List.getLast?_concat]

lemma create_torchrun_command_of_path_ne_empty (exe : String)
    (env : RendezvousEnv) (lm : Bool) (np : Int) (cfg : DeepspeedConfig)
    (tp : String) (args : List PyArg) (st : TempState)
    (h : (get_deepspeed_config_path cfg st).1 ≠ "") :
    create_torchrun_command exe env ⟨lm, np, cfg⟩ tp args st
      = ([exe, "-m", "torch.distributed.run"]
          ++ (get_torchrun_args lm np env).1
          ++ ["--nproc_per_node=" ++ toString (get_torchrun_args lm np env).2,
              tp]
          ++ args.map PyArg.toStr
          ++ ["-deepspeed", "--deepspeed_config",
              (get_deepspeed_config_path cfg st).1],
         (get_deepspeed_config_path cfg st).2) := by
  show (if (get_deepspeed_config_path cfg st).1 = "" then _ else _) = _
  rw [if_neg h]

lemma tempFileName_length (n : Nat) : (tempFileName n).length = 13 + n := by
  have h1 : "/tmp/tmp".length = 8 := rfl
  have h2 : ".json".length = 5 := rfl
  simp [tempFileName, String.length_append, h1, h2]
  omega

lemma tempFileName_ne_empty (n : Nat) : tempFileName n ≠ "" := by
  intro h
  have h2 : (13 + n) = 0 := by rw [← tempFileName_length n, h]; rfl
  omega

lemma tempFileName_injective : Function.Injective tempFileName := by
  intro m n h
  have h2 := congrArg String.length h
  rw [tempFileName_length, tempFileName_length] at h2
  omega

lemma decodeScalar_encodeScalar (s : PyScalar) :
    decodeScalar (encodeScalar s) = some s := by
  cases s <;> rfl

lemma decodeScalars_encode (l : List PyScalar) (rest : List PTok) :
    decodeScalars l.length (l.map encodeScalar ++ rest) = some (l, rest) := by
  induction l with
  | nil => rfl
  | cons x xs ih => simp [decodeScalars, decodeScalar_encodeScalar, ih]

lemma decodePairs_encode (l : List (String × PyScalar)) (rest : List PTok) :
    decodePairs l.length
        ((l.map (fun kv => [PTok.tKey kv.1, encodeScalar kv.2])).flatten ++ rest)
      = some (l, rest) := by
  induction l with
  | nil => rfl
  | cons kv tl ih => simp [decodePairs, decodeScalar_encodeScalar, ih]

/-- The pickling envelope round-trips any call: decoding an encoded
`(fn, args, kwargs)` triple recovers it exactly. -/
lemma decodeCall_encodeCall (c : SerializedCall) :
    decodeCall (encodeCall c) = some c := by
  obtain ⟨f, args, kwargs⟩ := c
  have h1 := decodeScalars_encode args
    (PTok.tLen kwargs.length
      :: (kwargs.map (fun kv => [PTok.tKey kv.1, encodeScalar kv.2])).flatten)
  have h2 := decodePairs_encode kwargs []
  simp only [List.append_nil] at h2
  simp [encodeCall, decodeCall, h1, h2]

/-- Claim C1 counterexample: with an empty resolved config path (config
`None`), the command built by `_create_torchrun_command` does not end with
the stringified extra arguments, and it still contains the enable-flag
token `-deepspeed` — the trailing group is not omitted entirely. -/
theorem C1_counterexample :
    ((create_torchrun_command "python" ⟨"127.0.0.1", 2000, 0⟩
        ⟨true, 2, DeepspeedConfig.none⟩ "train.py" [PyArg.str "a"] ⟨0, []⟩).1.getLast?
      ≠ some "a")
    ∧ "-deepspeed" ∈ (create_torchrun_command "python" ⟨"127.0.0.1", 2000, 0⟩
        ⟨true, 2, DeepspeedConfig.none⟩ "train.py" [PyArg.str "a"] ⟨0, []⟩).1 := by
  decide

/-- Claim C1, amended: when the resolved secondary-config path is empty
(config `None` or the empty string), `_create_torchrun_command` omits only
the `--deepspeed_config` token and the path token; the enable-flag token
`-deepspeed` stays, so the command ends with the stringified extra
arguments followed by `-deepspeed`. -/
theorem C1_empty_path_keeps_enable_flag (exe : String) (env : RendezvousEnv)
    (lm : Bool) (np : Int) (cfg : DeepspeedConfig) (tp : String)
    (args : List PyArg) (st : TempState)
    (h : cfg = DeepspeedConfig.none ∨ cfg = DeepspeedConfig.str "") :
    (create_torchrun_command exe env ⟨lm, np, cfg⟩ tp args st).1
      = [exe, "-m", "torch.distributed.run"]
        ++ (get_torchrun_args lm np env).1
        ++ ["--nproc_per_node=" ++ toString (get_torchrun_args lm np env).2, tp]
        ++ args.map PyArg.toStr ++ ["-deepspeed"] := by
  rcases h with rfl | rfl <;>
  · show (([exe, "-m", "torch.distributed.run"]
        ++ (get_torchrun_args lm np env).1
        ++ ["--nproc_per_node=" ++ toString (get_torchrun_args lm np env).2, tp]
        ++ args.map PyArg.toStr
        ++ ["-deepspeed", "--deepspeed_config", ""]).dropLast).dropLast = _
    rw [show [exe, "-m", "torch.distributed.run"]
          ++ (get_torchrun_args lm np env).1
          ++ ["--nproc_per_node=" ++ toString (get_torchrun_args lm np env).2, tp]
          ++ args.map PyArg.toStr
          ++ ["-deepspeed", "--deepspeed_config", ""]
        = ([exe, "-m", "torch.distributed.run"]
            ++ (get_torchrun_args lm np env).1
            ++ ["--nproc_per_node=" ++ toString (get_torchrun_args lm np env).2, tp]
            ++ args.map PyArg.toStr)
          ++ ["-deepspeed", "--deepspeed_config", ""] from by simp,
      dropLast_dropLast_three]

/-- Claim C1 witness: the amended statement at a concrete input. -/
theorem C1_witness :
    (create_torchrun_command "python" ⟨"127.0.0.1", 2000, 0⟩
        ⟨true, 3, DeepspeedConfig.none⟩ "t.py" [PyArg.int 7] ⟨0, []⟩).1
      = ["python", "-m", "torch.distributed.run", "--standalone", "--nnodes=1",
         "--nproc_per_node=3", "t.py", "7", "-deepspeed"] :=
  (C1_empty_path_keeps_enable_flag "python" ⟨"127.0.0.1", 2000, 0⟩ true 3
      DeepspeedConfig.none "t.py" [PyArg.int 7] ⟨0, []⟩ (Or.inl rfl)).trans
    (by decide)

/-- Claim C2: at the input of `test_create_torchrun_command_local`
(local mode, ten processes, string config, no extra arguments) the code
emits the enable-flag token spelled `-deepspeed`, while the repository
test at that very input expects `--deepspeed`; the token `--deepspeed`
appears nowhere in the produced command. -/
theorem C2_single_dash_divergence :
    (create_torchrun_command "python" ⟨"127.0.0.1", 2000, 0⟩
        ⟨true, 10, DeepspeedConfig.str "path/to/deepspeed"⟩ "path/to/exec" [] ⟨0, []⟩).1
      = ["python", "-m", "torch.distributed.run", "--standalone", "--nnodes=1",
         "--nproc_per_node=10", "path/to/exec",
         "-deepspeed", "--deepspeed_config", "path/to/deepspeed"]
    ∧ "--deepspeed" ∉ (create_torchrun_command "python" ⟨"127.0.0.1", 2000, 0⟩
        ⟨true, 10, DeepspeedConfig.str "path/to/deepspeed"⟩ "path/to/exec" [] ⟨0, []⟩).1 := by
  decide

/-- Claim C3: in local mode the topology resolver returns
`["--standalone", "--nnodes=1"]` with `processes_per_node = P`, and in
distributed mode with rank 0, address `127.0.0.1` and port 2000 it returns
the four rendezvous flags with `processes_per_node = 1`. -/
theorem C3_get_torchrun_args (P : Int) (env : RendezvousEnv) (_h : 0 < P) :
    get_torchrun_args true P env = (["--standalone", "--nnodes=1"], P)
    ∧ get_torchrun_args false P ⟨"127.0.0.1", 2000, 0⟩
      = (["--nnodes=" ++ toString P, "--node_rank=0",
          "--rdzv_endpoint=127.0.0.1:2000", "--rdzv_id=0"], 1) :=
  ⟨rfl, rfl⟩

/-- Claim C3 witness: the resolver contract at `P = 5`. -/
theorem C3_witness :
    (0 : Int) < 5
    ∧ (get_torchrun_args true 5 ⟨"127.0.0.1", 2000, 0⟩
        = (["--standalone", "--nnodes=1"], 5)
      ∧ get_torchrun_args false 5 ⟨"127.0.0.1", 2000, 0⟩
        = (["--nnodes=" ++ toString (5 : Int), "--node_rank=0",
            "--rdzv_endpoint=127.0.0.1:2000", "--rdzv_id=0"], 1)) :=
  ⟨by decide, C3_get_torchrun_args 5 ⟨"127.0.0.1", 2000, 0⟩ (by decide)⟩

/-- Claim C4: with a script-path entry point, any positional arguments and
a non-empty keyword-argument mapping, `_run_training_on_pytorch_file`
raises a `ValueError` and the state is returned untouched: no launch
command is recorded as executed and no temporary file is created. -/
theorem C4_kwargs_rejected (exe : String) (env : RendezvousEnv)
    (input_params : InputParams) (train_path : String) (args : List PyArg)
    (kwargs : List (String × PyArg)) (st : ExecState) (h : kwargs ≠ []) :
    run_training_on_pytorch_file exe env input_params train_path args kwargs st
      = (.error (.valueError
          "DeepspeedTorchDistributor with pytorch file does not support key-word type arguments"),
         st) := by
  unfold run_training_on_pytorch_file
  rw [if_pos h]

/-- Claim C4 witness: the rejection at a concrete non-empty keyword map. -/
theorem C4_witness :
    run_training_on_pytorch_file "python" ⟨"127.0.0.1", 2000, 0⟩
        ⟨true, 2, DeepspeedConfig.none⟩ "t.py" [PyArg.int 1]
        [("lr", PyArg.int 3)] ⟨⟨0, []⟩, []⟩
      = (.error (.valueError
          "DeepspeedTorchDistributor with pytorch file does not support key-word type arguments"),
         ⟨⟨0, []⟩, []⟩) :=
  C4_kwargs_rejected "python" ⟨"127.0.0.1", 2000, 0⟩ ⟨true, 2, DeepspeedConfig.none⟩
    "t.py" [PyArg.int 1] [("lr", PyArg.int 3)] ⟨⟨0, []⟩, []⟩ (by decide)

/-- Claim C5: `run` raises `FileNotFoundError` when the training path does
not exist, and raises `RuntimeError` on a callable `train_object`
regardless of `local_mode`, never reaching local or distributed
dispatch. -/
theorem C5_run_errors (fs : List String) (local_mode : Bool) (s : String)
    (h : s ∉ fs) :
    DeepspeedTorchDistributor.run fs local_mode (TrainObject.path s)
      = .error (.fileNotFoundError
          ("The path to training file " ++ s ++ " does not exist."))
    ∧ ∀ lm : Bool, DeepspeedTorchDistributor.run fs lm TrainObject.func
      = .error (.runtimeError
          "The DeepspeedTorchDistributor does not support Python training functions as input at this time") := by
  constructor
  · simp only [DeepspeedTorchDistributor.run]
    rw [if_neg h]
  · intro lm
    rfl

/-- Claim C5 witness: the two errors at a concrete missing path. -/
theorem C5_witness :
    DeepspeedTorchDistributor.run ["a.py"] true (TrainObject.path "b.py")
      = .error (.fileNotFoundError
          ("The path to training file " ++ "b.py" ++ " does not exist."))
    ∧ ∀ lm : Bool, DeepspeedTorchDistributor.run ["a.py"] lm TrainObject.func
      = .error (.runtimeError
          "The DeepspeedTorchDistributor does not support Python training functions as input at this time") :=
  C5_run_errors ["a.py"] true "b.py" (by decide)

/-- Claim C6: `_get_deepspeed_config_path` writes a dict to a file whose
content is the JSON encoding of the dict and returns that file path; a
string is returned verbatim; `None` resolves to the empty string. -/
theorem C6_config_resolution (d : List (String × JsonVal)) (s : String)
    (st : TempState) :
    ((get_deepspeed_config_path (DeepspeedConfig.dict d) st).2.files.head?
        = some ((get_deepspeed_config_path (DeepspeedConfig.dict d) st).1, jsonDump d))
    ∧ get_deepspeed_config_path (DeepspeedConfig.str s) st = (s, st)
    ∧ get_deepspeed_config_path DeepspeedConfig.none st = ("", st) :=
  ⟨rfl, rfl, rfl⟩

/-- Claim C7: when construction succeeds, the configured total process
count is `num_gpus * nnodes` and is at least 1. -/
theorem C7_total_processes (num_gpus nnodes : Int) (local_mode : Bool)
    (cfg : DeepspeedConfig) (d : Distributor)
    (h : distributor_init num_gpus nnodes local_mode cfg = .ok d) :
    d.num_processes = num_gpus * nnodes ∧ 1 ≤ d.num_processes := by
  simp only [distributor_init] at h
  split at h
  · exact absurd h (by simp)
  · rename_i hc
    injection h with h2
    subst h2
    refine ⟨rfl, ?_⟩
    show (1 : Int) ≤ num_gpus * nnodes
    omega

/-- Claim C7 witness: the invariant for two GPUs on three nodes. -/
theorem C7_witness :
    (⟨6, true, DeepspeedConfig.none⟩ : Distributor).num_processes = 2 * 3
    ∧ 1 ≤ (⟨6, true, DeepspeedConfig.none⟩ : Distributor).num_processes :=
  C7_total_processes 2 3 true DeepspeedConfig.none
    ⟨6, true, DeepspeedConfig.none⟩ rfl

/-- Claim C8: pickling the representative call (a function applied to the
two numeric arguments 2 and 0 with no keyword arguments) and loading the
resulting envelope returns the callable, the positional arguments in
order, and the empty keyword mapping, all equal to the originals. -/
theorem C8_pickle_roundtrip :
    get_fn_output
        (pickle_fn_and_save
          ⟨"test_function", [PyScalar.int 2, PyScalar.int 0], []⟩ "" "" ⟨[]⟩).1
        (pickle_fn_and_save
          ⟨"test_function", [PyScalar.int 2, PyScalar.int 0], []⟩ "" "" ⟨[]⟩).2
      = some ⟨"test_function", [PyScalar.int 2, PyScalar.int 0], []⟩ := by
  rfl

/-- Claim C9: the runner script emitted by `create_fn_run_script` does not
depend on any prior state (byte-identical output for identical arguments),
and with non-empty prefix and suffix code the emitted file is exactly the
prefix, the fixed body, and the suffix, concatenated verbatim. -/
theorem C9_runner_script (p o s pre suf : String) (st1 st2 : ScriptFS)
    (_hpre : pre ≠ "") (_hsuf : suf ≠ "") :
    ((create_fn_run_script p o s pre suf st1).2.files.head?
        = (create_fn_run_script p o s pre suf st2).2.files.head?)
    ∧ (create_fn_run_script p o s pre suf st1).2.files.head?
        = some (s, pre ++ code_snippet_body p o ++ suf) :=
  ⟨rfl, rfl⟩

/-- Claim C9 witness: determinism and verbatim insertion at concrete
arguments and two different prior filesystem states. -/
theorem C9_witness :
    "A\n" ≠ "" ∧ "B\n" ≠ ""
    ∧ (((create_fn_run_script "p.pkl" "o.pkl" "s.py" "A\n" "B\n" ⟨[]⟩).2.files.head?
          = (create_fn_run_script "p.pkl" "o.pkl" "s.py" "A\n" "B\n"
              ⟨[("old.py", "junk")]⟩).2.files.head?)
        ∧ (create_fn_run_script "p.pkl" "o.pkl" "s.py" "A\n" "B\n" ⟨[]⟩).2.files.head?
          = some ("s.py", "A\n" ++ code_snippet_body "p.pkl" "o.pkl" ++ "B\n")) :=
  ⟨by decide, by decide,
   C9_runner_script "p.pkl" "o.pkl" "s.py" "A\n" "B\n" ⟨[]⟩ ⟨[("old.py", "junk")]⟩
     (by decide) (by decide)⟩

/-- Claim C10: with a string or `None` config the built command is
independent of the temporary-file state (two calls with identical
arguments agree), while with a dict config each call consumes a fresh
temporary file name, so two consecutive calls with identical arguments
end in different config-path tokens. -/
theorem C10_determinism_iff_not_dict (exe : String) (env : RendezvousEnv)
    (lm : Bool) (np : Int) (tp : String) (args : List PyArg) (st : TempState) :
    (∀ (s : String) (st2 : TempState),
        (create_torchrun_command exe env ⟨lm, np, DeepspeedConfig.str s⟩ tp args st).1
          = (create_torchrun_command exe env ⟨lm, np, DeepspeedConfig.str s⟩ tp args st2).1)
    ∧ (∀ st2 : TempState,
        (create_torchrun_command exe env ⟨lm, np, DeepspeedConfig.none⟩ tp args st).1
          = (create_torchrun_command exe env ⟨lm, np, DeepspeedConfig.none⟩ tp args st2).1)
    ∧ (∀ d : List (String × JsonVal),
        (create_torchrun_command exe env ⟨lm, np, DeepspeedConfig.dict d⟩ tp args st).1.getLast?
          = some (tempFileName st.counter)
        ∧ (create_torchrun_command exe env ⟨lm, np, DeepspeedConfig.dict d⟩ tp args
            (create_torchrun_command exe env ⟨lm, np, DeepspeedConfig.dict d⟩ tp args st).2).1.getLast?
          = some (tempFileName (st.counter + 1))
        ∧ tempFileName st.counter ≠ tempFileName (st.counter + 1)) := by
  refine ⟨?_, ?_, ?_⟩
  · intro s st2
    by_cases hs : s = "" <;>
      simp [create_torchrun_command, get_deepspeed_config_path, hs]
  · intro st2
    rfl
  · intro d
    have hne1 : (get_deepspeed_config_path (DeepspeedConfig.dict d) st).1 ≠ "" :=
      tempFileName_ne_empty st.counter
    refine ⟨?_, ?_, ?_⟩
    · rw [create_torchrun_command_of_path_ne_empty exe env lm np
        (DeepspeedConfig.dict d) tp args st hne1]
      exact getLast?_cmd _ _ _ _ _ _ _ _ _ _
    · have hstate :
          (create_torchrun_command exe env ⟨lm, np, DeepspeedConfig.dict d⟩
              tp args st).2
            = (get_deepspeed_config_path (DeepspeedConfig.dict d) st).2 := by
        rw [create_torchrun_command_of_path_ne_empty exe env lm np
          (DeepspeedConfig.dict d) tp args st hne1]
      rw [hstate]
      have hne2 : (get_deepspeed_config_path (DeepspeedConfig.dict d)
          ((get_deepspeed_config_path (DeepspeedConfig.dict d) st).2)).1 ≠ "" :=
        tempFileName_ne_empty (st.counter + 1)
      rw [create_torchrun_command_of_path_ne_empty exe env lm np
        (DeepspeedConfig.dict d) tp args
        ((get_deepspeed_config_path (DeepspeedConfig.dict d) st).2) hne2]
      exact getLast?_cmd _ _ _ _ _ _ _ _ _ _
    · intro hcontra
      have h2 := tempFileName_injective hcontra
      omega
